import Mathlib

/-!
Verification of the `argopy` Argo index store (`argopy/stores/argo_index_pa.py`).

The file shallowly embeds the index-store data model and the operations of the
two backends (`indexstore_pyarrow`, `indexstore_pandas`):

* an index is a list of `Row` records (the columns of one line of a GDAC index
  file); the backing file is abstracted as the list of rows its parse yields;
* the store object is `ArgoStore`, with the `hasattr(self, 'index')` /
  `hasattr(self, 'search')` dynamic checks made explicit as `loaded` /
  `searched` flags, and a `readCount` field counting how many times the
  backing file was read;
* Python exceptions (`DataNotFound`, `InvalidDataset`) become an `Err` value
  returned next to the mutated store, so that the state after a raising call
  remains observable;
* the cache-disabled compute paths are modelled (`cache=False`); caching is
  pure I/O layered on the same computations;
* numpy's columnwise boolean reductions (`np.logical_and.reduce` /
  `np.logical_or.reduce` over per-criterion arrays) are modelled as the
  pointwise combination of the same per-row criteria;
* `pyarrow.compute.match_substring_regex` is only ever called with patterns
  whose single metacharacter is `.`; `containsPattern` implements exactly that
  fragment (a `.` in the pattern matches any character);
* coordinates are embedded as `ℚ`; the `%0.2f` formatting of CPython is
  `fmt2`, computed on the numerator/denominator with round-half-to-even;
* timestamps are kept in the numeric `YYYYMMDDHHMMSS` encoding of the index
  file (a `Nat`), on which chronological order is numeric order; this is the
  comparable representation the pandas backend searches on, and it is order
  isomorphic to the parsed timestamps the pyarrow backend compares.
-/

/-! ### Basic helpers (Python string primitives, structurally recursive) -/

/-- Zero-pad the decimal rendering of `n` to width `w` (Python `"%0.Nd" % n`
for a non-negative argument, and the zero padding of `strftime`). -/
def pad (w n : Nat) : String :=
  let s := toString n
  String.mk (List.replicate (w - s.length) '0') ++ s

/-- Insert `x` into an already ascending list, before the first larger
element. -/
def insertAsc (x : Nat) : List Nat → List Nat
  | [] => [x]
  | y :: ys => if x ≤ y then x :: y :: ys else y :: insertAsc x ys

/-- Python `sorted` on a list of non-negative integers: ascending order. -/
def pySorted : List Nat → List Nat
  | [] => []
  | x :: xs => insertAsc x (pySorted xs)

/-- Python `str.split(sep)` for a one-character separator, on the character
list of the string: splits at every occurrence, keeping empty segments. -/
def splitOnChar (sep : Char) : List Char → List (List Char)
  | [] => [[]]
  | c :: cs =>
    if c = sep then [] :: splitOnChar sep cs
    else
      match splitOnChar sep cs with
      | [] => [[c]]
      | s :: rest => (c :: s) :: rest

/-- Decimal digit value of a character, if it is a digit. -/
def digitVal (c : Char) : Option Nat :=
  if '0' ≤ c ∧ c ≤ '9' then some (c.toNat - 48) else none

/-- Accumulating decimal parse of a digit string. -/
def digitsToNat (acc : Nat) : List Char → Option Nat
  | [] => some acc
  | c :: cs =>
    match digitVal c with
    | some d => digitsToNat (acc * 10 + d) cs
    | none => none

/-- Python `int(s)` on a plain decimal string (optional sign then digits);
`none` models the `ValueError` raised on anything else. -/
def pyIntOfChars : List Char → Option Int
  | [] => none
  | '-' :: cs => if cs.isEmpty then none else (digitsToNat 0 cs).map (fun n => -(n : Int))
  | '+' :: cs => if cs.isEmpty then none else (digitsToNat 0 cs).map (fun n => (n : Int))
  | cs => (digitsToNat 0 cs).map (fun n => (n : Int))

/-- One pattern character against one subject character: `.` matches any
character, everything else matches literally.  This is the only regex
fragment the index store ever passes to `match_substring_regex` or
`str.contains`. -/
def charMatch (p c : Char) : Bool := p = '.' || p = c

/-- Does the pattern match a prefix of the subject? -/
def listMatchAt : List Char → List Char → Bool
  | [], _ => true
  | _ :: _, [] => false
  | p :: ps, c :: cs => charMatch p c && listMatchAt ps cs

/-- Does the (dot-only) regex pattern match anywhere inside the subject?
Models `pyarrow.compute.match_substring_regex(col, pattern)` and
`pandas.Series.str.contains(pattern, regex=True)` for the patterns used by
the index store. -/
def containsPattern (pat : List Char) : List Char → Bool
  | [] => listMatchAt pat []
  | c :: cs => listMatchAt pat (c :: cs) || containsPattern pat cs

/-! ### Row and error model -/

/-- One data row of a GDAC Argo index file (the columns the store touches).
`date` and `date_update` keep the file's numeric `YYYYMMDDHHMMSS` encoding. -/
structure Row where
  file : String
  date : Nat
  latitude : ℚ
  longitude : ℚ
  institution : String
  profiler_type : String
  date_update : Nat
deriving DecidableEq

/-- The exceptions of `argopy.errors` that the index store raises on the
paths modelled here. -/
inductive Err where
  | DataNotFound (msg : String)
  | InvalidDataset (msg : String)
deriving DecidableEq

deriving instance DecidableEq for Except

/-! ### Search description and `cname` canonicalization -/

/-- The `search_type` attribute: the tagged description of the last search.
The Python value is a dict with optional `WMO` / `CYC` / `BOX` keys (`'?'`
before any search); the constructors enumerate the shapes the search methods
produce.  `BOX6` carries the two time bounds in the numeric encoding. -/
inductive SearchType where
  | noSearch
  | WMO (wmos : List Nat)
  | WMO_CYC (wmos : List Nat) (cycs : List Nat)
  | CYC (cycs : List Nat)
  | BOX4 (lon_min lon_max lat_min lat_max : ℚ)
  | BOX6 (lon_min lon_max lat_min lat_max : ℚ) (tim_min tim_max : Nat)
deriving DecidableEq

/-- Round-half-to-even of `(100 * num) / den`, on integers.  This is the value
CPython's `"%0.2f"` prints (scaled by 100) for an exactly representable
argument. -/
def roundHalfEvenScaled (num : Int) (den : Nat) : Int :=
  let scaled : Int := 100 * num
  let f : Int := Int.fdiv scaled den
  let r : Int := scaled - f * den
  if 2 * r < den then f
  else if (den : Int) < 2 * r then f + 1
  else if f % 2 = 0 then f else f + 1

/-- Python `"%0.2f" % x`: two fractional digits, round half to even. -/
def fmt2 (q : ℚ) : String :=
  let n := roundHalfEvenScaled q.num q.den
  let m := n.natAbs
  (if n < 0 then "-" else "") ++ toString (m / 100) ++ "." ++ pad 2 (m % 100)

/-- `_format(x, "tim")`: `strftime("%Y-%m-%d")` on the numeric
`YYYYMMDDHHMMSS` encoding. -/
def fmtDate (t : Nat) : String :=
  pad 4 (t / 10000000000) ++ "-" ++ pad 2 (t / 100000000 % 100) ++ "-" ++ pad 2 (t / 1000000 % 100)

/-- The `prtcyc` lambda of `cname`:
`"WMO%i_%s" % (wmo, "_".join(["CYC%i" % c for c in sorted(CYC)]))`. -/
def prtcyc (CYC : List Nat) (wmo : Nat) : String :=
  "WMO" ++ toString wmo ++ "_" ++
    String.intercalate "_" ((pySorted CYC).map (fun cyc => "CYC" ++ toString cyc))

/-- `ArgoIndexStoreProto.cname`: canonical string encoding of the last
search, `"full"` when no search was performed. -/
def cname : SearchType → String
  | .BOX4 a b c d =>
      "x=" ++ fmt2 a ++ "/" ++ fmt2 b ++ ";y=" ++ fmt2 c ++ "/" ++ fmt2 d
  | .BOX6 a b c d t0 t1 =>
      "x=" ++ fmt2 a ++ "/" ++ fmt2 b ++ ";y=" ++ fmt2 c ++ "/" ++ fmt2 d ++
        ";t=" ++ fmtDate t0 ++ "/" ++ fmtDate t1
  | .WMO [wmo] => "WMO" ++ toString wmo
  | .WMO WMOs => String.intercalate ";" ((pySorted WMOs).map (fun wmo => "WMO" ++ toString wmo))
  | .WMO_CYC [wmo] CYC => prtcyc CYC wmo
  | .WMO_CYC WMOs CYC => String.intercalate ";" (WMOs.map (prtcyc CYC))
  | .CYC [cyc] => "CYC" ++ toString cyc
  | .CYC CYCs => String.intercalate ";" ((pySorted CYCs).map (fun cyc => "CYC" ++ toString cyc))
  | .noSearch => "full"

/-! ### The store state -/

/-- The mutable state of an index store object.  `fileRows` is the parse of
the backing index file (file access and the gzip preference are abstracted
into it); `loaded` / `searched` make the `hasattr` checks explicit;
`readCount` counts backing-file reads. -/
structure ArgoStore where
  fileRows : List Row
  loaded : Bool
  index : List Row
  searched : Bool
  search : List Row
  search_filter : List Bool
  search_type : SearchType
  readCount : Nat
deriving DecidableEq

namespace ArgoIndexStoreProto

/-- `N_RECORDS`: row count of the full index; raises `InvalidDataset` before
any `load`. -/
def N_RECORDS (s : ArgoStore) : Except Err Nat :=
  if s.loaded then .ok s.index.length
  else .error (.InvalidDataset "Load the index first !")

/-- `N_MATCH`: row count of the search result; raises `InvalidDataset` before
any search. -/
def N_MATCH (s : ArgoStore) : Except Err Nat :=
  if s.searched then .ok s.search.length
  else .error (.InvalidDataset "Initialised search first !")

/-- The row-limited `read_csv` of both backends: the pyarrow helper feeds
only `nrows + 9` raw lines (8 preamble + 1 header + `nrows` data lines) to
the parser, the pandas call passes `nrows=` natively; both yield the first
`nrows` data rows of the file. -/
def read_csv (fileRows : List Row) : Option Nat → List Row
  | some n => fileRows.take n
  | none => fileRows

/-- Python `l[0:stop]` row slicing (shared by `pandas.DataFrame` and
`pyarrow.Table`): a negative `stop` counts from the end. -/
def pySliceTo (stop : Int) (l : List Row) : List Row :=
  if 0 ≤ stop then l.take stop.toNat else l.take (l.length - stop.natAbs)

/-- The tail of `load` shared by both backends: raise `DataNotFound` on an
empty index, then the `nrows`-mismatch truncation
`self.index = self.index[0:nrows-1]`. -/
def loadCheck (s : ArgoStore) (nrows : Option Nat) : ArgoStore × Option Err :=
  if s.index.length = 0 then (s, some (.DataNotFound "No data found in the index"))
  else
    match nrows with
    | some n =>
      if s.index.length ≠ n then ({ s with index := pySliceTo ((n : Int) - 1) s.index }, none)
      else (s, none)
    | none => (s, none)

/-- `load(force, nrows)` of both backends: re-read only when no index is held
or `force` is set, then the emptiness check and truncation of `loadCheck`.
Returns the post-call state next to the raised exception, if any. -/
def load (s : ArgoStore) (force : Bool) (nrows : Option Nat) : ArgoStore × Option Err :=
  loadCheck
    (if !s.loaded || force then
      { s with index := read_csv s.fileRows nrows, loaded := true, readCount := s.readCount + 1 }
    else s) nrows

end ArgoIndexStoreProto

/-! ### Filtering primitives (numpy / table operations) -/

/-- `np.nonzero(mask)[0]`, with an explicit position accumulator: the
positions holding `true`, in ascending order. -/
def trueIndicesAux (i : Nat) : List Bool → List Nat
  | [] => []
  | b :: bs => if b then i :: trueIndicesAux (i + 1) bs else trueIndicesAux (i + 1) bs

/-- `np.nonzero(mask)[0]`: positions of the `true` entries of a boolean
mask. -/
def trueIndices (mask : List Bool) : List Nat := trueIndicesAux 0 mask

/-- `table.take(positions)`: the rows at the given positions (all positions
produced by `trueIndices` are in range). -/
def takeIndices (idx : List Row) (pos : List Nat) : List Row :=
  pos.filterMap (fun i => idx[i]?)

/-- `table.filter(mask)` / `df[mask]`: the rows whose mask entry is `true`. -/
def maskFilter : List Row → List Bool → List Row
  | [], _ => []
  | _ :: _, [] => []
  | r :: rs, b :: bs => if b then r :: maskFilter rs bs else maskFilter rs bs

/-! ### The two `run` implementations -/

namespace indexstore_pyarrow

/-- `indexstore_pyarrow.run` (compute path): with `nrows` and a non-empty
match set, take the rows at the first `min(nrows, n_match)` matching
positions; otherwise filter by the mask. -/
def run (idx : List Row) (search_filter : List Bool) (nrows : Option Nat) : List Row :=
  let this_filter := trueIndices search_filter
  let n_match := this_filter.length
  match nrows with
  | some n =>
    if 0 < n_match then takeIndices idx (this_filter.take (min n n_match))
    else maskFilter idx search_filter
  | none => maskFilter idx search_filter

end indexstore_pyarrow

namespace indexstore_pandas

/-- `indexstore_pandas.run` (compute path): with `nrows` and a non-empty
match set the source takes `self.index.head(min(nrows, n_match))` — the head
of the **full index**, not of the matches; otherwise it filters by the mask.
(`reset_index()` only relabels rows and adds the label column.) -/
def run (idx : List Row) (search_filter : List Bool) (nrows : Option Nat) : List Row :=
  let n_match := (trueIndices search_filter).length
  match nrows with
  | some n =>
    if 0 < n_match then idx.take (min n n_match)
    else maskFilter idx search_filter
  | none => maskFilter idx search_filter

end indexstore_pandas

/-! ### Result materialization (`to_dataframe`, compute path) -/

/-- The value `int(x) if int(x) parses else x` fed to the profiler
dictionary lookup (the `ev` helper of `to_dataframe`). -/
inductive IntOrStr where
  | int (i : Int)
  | str (s : String)
deriving DecidableEq

/-- The `ev` helper of `to_dataframe`: `int(x)`, falling back to the string
itself. -/
def ev (x : String) : IntOrStr :=
  match pyIntOfChars x.toList with
  | some i => .int i
  | none => .str x

/-- `int(file.split('/')[1])`: the WMO number derived from the second
path segment of the `file` column; `none` models the exception Python raises
when the segment is missing or not an integer. -/
def pyWmoOf (file : String) : Option Int :=
  match (splitOnChar '/' file.toList)[1]? with
  | some seg => pyIntOfChars seg
  | none => none

/-- One row of the user-facing dataframe produced by `to_dataframe`: the raw
columns, the derived `wmo`, and the institution / profiler code columns next
to their mapped labels. -/
structure OutRow where
  file : String
  date : Nat
  latitude : ℚ
  longitude : ℚ
  date_update : Nat
  wmo : Option Int
  institution_code : String
  institution : String
  profiler_code : String
  profiler : String
deriving DecidableEq

/-- The per-row post-processing of `to_dataframe`: derive `wmo`, rename
`institution` to `institution_code` and store the dictionary lookup under
`institution`, and likewise `profiler_type` to `profiler_code` / `profiler`.
`instMap` and `profMap` stand for `mapp_dict` applied to the static
`institutions` / `profilers` dictionaries (external lookup tables).  The
`date` / `date_update` parse into timestamps is a change of representation
kept in the numeric encoding here. -/
def mkOutRow (instMap : String → String) (profMap : IntOrStr → String) (r : Row) : OutRow :=
  { file := r.file
    date := r.date
    latitude := r.latitude
    longitude := r.longitude
    date_update := r.date_update
    wmo := pyWmoOf r.file
    institution_code := r.institution
    institution := instMap r.institution
    profiler_code := r.profiler_type
    profiler := profMap (ev r.profiler_type) }

namespace ArgoIndexStoreProto

/-- `df.loc[0:nrows-1]` on a dense 0-based frame: the first `nrows` rows. -/
def truncOpt (nrows : Option Nat) (df : List Row) : List Row :=
  match nrows with
  | some n => df.take n
  | none => df

/-- The from-scratch dataframe conversion of `to_dataframe`: row cap, then
per-row post-processing. -/
def postprocess (instMap : String → String) (profMap : IntOrStr → String)
    (nrows : Option Nat) (df : List Row) : List OutRow :=
  (truncOpt nrows df).map (mkOutRow instMap profMap)

/-- `to_dataframe(nrows, index)` of both backends (compute path): from the
search results when a search ran and `index` is not forced — raising
`DataNotFound` when the search is empty — else from the full index, loading
it first if needed.  Returns the post-call state next to the result. -/
def to_dataframe (instMap : String → String) (profMap : IntOrStr → String)
    (s : ArgoStore) (nrows : Option Nat) (index : Bool) :
    ArgoStore × Except Err (List OutRow) :=
  if s.searched && !index then
    if s.search.length = 0 then
      (s, .error (.DataNotFound
        ("No data found in the index corresponding to your search criteria. Search definition: "
          ++ cname s.search_type)))
    else (s, .ok (postprocess instMap profMap nrows s.search))
  else
    let r := if !s.loaded then load s false nrows else (s, none)
    match r.2 with
    | some err => (r.1, .error err)
    | none => (r.1, .ok (postprocess instMap profMap nrows r.1.index))

/-- The shared skeleton of the six search methods: `self.load()`, record the
search description, build the boolean mask over the loaded index, then
`self.run(nrows)` (which sets `search`). -/
def searchStep (s : ArgoStore) (st : SearchType) (mkMask : List Row → List Bool)
    (runner : List Row → List Bool → Option Nat → List Row) (nrows : Option Nat) :
    ArgoStore × Option Err :=
  let r := load s false none
  match r.2 with
  | some err => (r.1, some err)
  | none =>
    let s2 := { r.1 with search_type := st, search_filter := mkMask r.1.index }
    ({ s2 with searched := true, search := runner s2.index s2.search_filter nrows }, none)

end ArgoIndexStoreProto

/-! ### The search predicates and methods -/

/-- WMO mask: OR over the WMO list of the regex test `/{wmo}/` on `file`. -/
def wmoFilter (idx : List Row) (WMOs : List Nat) : List Bool :=
  idx.map (fun r =>
    WMOs.any (fun wmo => containsPattern ("/" ++ toString wmo ++ "/").toList r.file.toList))

/-- Per-cycle filename pattern: `_%0.3d.nc` below 1000, `_%0.4d.nc` at or
above. -/
def cycPattern (cyc : Nat) : List Char :=
  if cyc < 1000 then ("_" ++ pad 3 cyc ++ ".nc").toList
  else ("_" ++ pad 4 cyc ++ ".nc").toList

/-- Cycle mask: OR over the cycle list of the per-cycle pattern test. -/
def cycFilter (idx : List Row) (CYCs : List Nat) : List Bool :=
  idx.map (fun r => CYCs.any (fun cyc => containsPattern (cycPattern cyc) r.file.toList))

/-- WMO × cycle mask: OR over all pairs of the `{wmo}_{cyc:03d|04d}.nc`
pattern test. -/
def wmoCycFilter (idx : List Row) (WMOs CYCs : List Nat) : List Bool :=
  idx.map (fun r =>
    WMOs.any (fun wmo =>
      CYCs.any (fun cyc => containsPattern (toString wmo ++ String.mk (cycPattern cyc)).toList r.file.toList)))

/-- Time mask: `date >= tim_min AND date <= tim_max`, inclusive both ends. -/
def timFilter (idx : List Row) (t0 t1 : Nat) : List Bool :=
  idx.map (fun r => decide (t0 ≤ r.date) && decide (r.date ≤ t1))

/-- The lat/lon box row predicate: the four inclusive bound comparisons. -/
def latLonPred (a b c d : ℚ) (r : Row) : Bool :=
  (decide (a ≤ r.longitude) && decide (r.longitude ≤ b)) &&
    (decide (c ≤ r.latitude) && decide (r.latitude ≤ d))

/-- Lat/lon box mask: AND of the four inclusive bound comparisons. -/
def latLonFilter (idx : List Row) (a b c d : ℚ) : List Bool :=
  idx.map (latLonPred a b c d)

/-- Lat/lon + time mask: conjunction of the box and time masks. -/
def latLonTimFilter (idx : List Row) (a b c d : ℚ) (t0 t1 : Nat) : List Bool :=
  idx.map (fun r =>
    (decide (t0 ≤ r.date) && decide (r.date ≤ t1)) && latLonPred a b c d r)

namespace indexstore_pyarrow

/-- `indexstore_pyarrow.search_wmo`. -/
def search_wmo (s : ArgoStore) (WMOs : List Nat) (nrows : Option Nat) : ArgoStore × Option Err :=
  ArgoIndexStoreProto.searchStep s (.WMO WMOs) (fun idx => wmoFilter idx WMOs) run nrows

/-- `indexstore_pyarrow.search_cyc`. -/
def search_cyc (s : ArgoStore) (CYCs : List Nat) (nrows : Option Nat) : ArgoStore × Option Err :=
  ArgoIndexStoreProto.searchStep s (.CYC CYCs) (fun idx => cycFilter idx CYCs) run nrows

/-- `indexstore_pyarrow.search_wmo_cyc`. -/
def search_wmo_cyc (s : ArgoStore) (WMOs CYCs : List Nat) (nrows : Option Nat) :
    ArgoStore × Option Err :=
  ArgoIndexStoreProto.searchStep s (.WMO_CYC WMOs CYCs)
    (fun idx => wmoCycFilter idx WMOs CYCs) run nrows

/-- `indexstore_pyarrow.search_tim` on a 6-element box. -/
def search_tim (s : ArgoStore) (a b c d : ℚ) (t0 t1 : Nat) (nrows : Option Nat) :
    ArgoStore × Option Err :=
  ArgoIndexStoreProto.searchStep s (.BOX6 a b c d t0 t1)
    (fun idx => timFilter idx t0 t1) run nrows

/-- `indexstore_pyarrow.search_lat_lon` on a 4-element box. -/
def search_lat_lon (s : ArgoStore) (a b c d : ℚ) (nrows : Option Nat) :
    ArgoStore × Option Err :=
  ArgoIndexStoreProto.searchStep s (.BOX4 a b c d)
    (fun idx => latLonFilter idx a b c d) run nrows

/-- `indexstore_pyarrow.search_lat_lon_tim` on a 6-element box. -/
def search_lat_lon_tim (s : ArgoStore) (a b c d : ℚ) (t0 t1 : Nat) (nrows : Option Nat) :
    ArgoStore × Option Err :=
  ArgoIndexStoreProto.searchStep s (.BOX6 a b c d t0 t1)
    (fun idx => latLonTimFilter idx a b c d t0 t1) run nrows

end indexstore_pyarrow

namespace indexstore_pandas

/-- `indexstore_pandas.search_wmo`. -/
def search_wmo (s : ArgoStore) (WMOs : List Nat) (nrows : Option Nat) : ArgoStore × Option Err :=
  ArgoIndexStoreProto.searchStep s (.WMO WMOs) (fun idx => wmoFilter idx WMOs) run nrows

/-- `indexstore_pandas.search_cyc`. -/
def search_cyc (s : ArgoStore) (CYCs : List Nat) (nrows : Option Nat) : ArgoStore × Option Err :=
  ArgoIndexStoreProto.searchStep s (.CYC CYCs) (fun idx => cycFilter idx CYCs) run nrows

/-- `indexstore_pandas.search_wmo_cyc`. -/
def search_wmo_cyc (s : ArgoStore) (WMOs CYCs : List Nat) (nrows : Option Nat) :
    ArgoStore × Option Err :=
  ArgoIndexStoreProto.searchStep s (.WMO_CYC WMOs CYCs)
    (fun idx => wmoCycFilter idx WMOs CYCs) run nrows

/-- `indexstore_pandas.search_tim` on a 6-element box (dates compared in
the numeric encoding). -/
def search_tim (s : ArgoStore) (a b c d : ℚ) (t0 t1 : Nat) (nrows : Option Nat) :
    ArgoStore × Option Err :=
  ArgoIndexStoreProto.searchStep s (.BOX6 a b c d t0 t1)
    (fun idx => timFilter idx t0 t1) run nrows

/-- `indexstore_pandas.search_lat_lon` on a 4-element box. -/
def search_lat_lon (s : ArgoStore) (a b c d : ℚ) (nrows : Option Nat) :
    ArgoStore × Option Err :=
  ArgoIndexStoreProto.searchStep s (.BOX4 a b c d)
    (fun idx => latLonFilter idx a b c d) run nrows

/-- `indexstore_pandas.search_lat_lon_tim` on a 6-element box. -/
def search_lat_lon_tim (s : ArgoStore) (a b c d : ℚ) (t0 t1 : Nat) (nrows : Option Nat) :
    ArgoStore × Option Err :=
  ArgoIndexStoreProto.searchStep s (.BOX6 a b c d t0 t1)
    (fun idx => latLonTimFilter idx a b c d t0 t1) run nrows

end indexstore_pandas

/-! ### Store-level `run` (needed on an already prepared search filter) -/

namespace indexstore_pyarrow

/-- Store-level `run`: fill `search` from the held index and filter. -/
def runStore (s : ArgoStore) (nrows : Option Nat) : ArgoStore :=
  { s with searched := true, search := run s.index s.search_filter nrows }

end indexstore_pyarrow

namespace indexstore_pandas

/-- Store-level `run`: fill `search` from the held index and filter. -/
def runStore (s : ArgoStore) (nrows : Option Nat) : ArgoStore :=
  { s with searched := true, search := run s.index s.search_filter nrows }

end indexstore_pandas

/-- The well-formedness of a search call outcome: the raised exception, if
any, is never the `InvalidDataset` state error, and on success the store
holds both an index and a search result. -/
def searchOk (r : ArgoStore × Option Err) : Prop :=
  (∀ msg, r.2 ≠ some (.InvalidDataset msg)) ∧
    (r.2 = none → r.1.loaded = true ∧ r.1.searched = true)

/-! ### Concrete fixtures -/

/-- A concrete index row with the given file path, date and position. -/
def mkRow (f : String) (dt : Nat) (la lo : ℚ) : Row :=
  { file := f, date := dt, latitude := la, longitude := lo,
    institution := "IF", profiler_type := "846", date_update := dt }

/-- Fixture row outside the sample search. -/
def rowA : Row := mkRow "aoml/13857/profiles/R13857_001.nc" 19970729200300 0 0

/-- Fixture row inside the sample search. -/
def rowB : Row := mkRow "aoml/1901393/profiles/R1901393_007.nc" 20070801000000 42 (-57)

/-- A sample row predicate matching `rowB` only. -/
def onlyB (r : Row) : Bool := decide (r.latitude = (42 : ℚ))

/-- A five-row fixture index. -/
def rows5 : List Row :=
  [mkRow "a/1/f1.nc" 1 0 0, mkRow "a/2/f2.nc" 2 0 0, mkRow "a/3/f3.nc" 3 0 0,
   mkRow "a/4/f4.nc" 4 0 0, mkRow "a/5/f5.nc" 5 0 0]

/-- A store that has loaded the five-row fixture index. -/
def storeFive : ArgoStore :=
  { fileRows := rows5, loaded := true, index := rows5, searched := false,
    search := [], search_filter := [], search_type := .noSearch, readCount := 1 }

/-- A freshly constructed store (nothing loaded, nothing searched). -/
def storeFresh : ArgoStore :=
  { fileRows := [rowA, rowB], loaded := false, index := [], searched := false,
    search := [], search_filter := [], search_type := .noSearch, readCount := 0 }

/-- A store after a search that matched one row. -/
def storeSearched : ArgoStore :=
  { fileRows := [rowA, rowB], loaded := true, index := [rowA, rowB], searched := true,
    search := [rowB], search_filter := [false, true], search_type := .WMO [1901393],
    readCount := 1 }

/-- A store after a search that matched nothing. -/
def storeNoMatch : ArgoStore :=
  { fileRows := [rowA, rowB], loaded := true, index := [rowA, rowB], searched := false,
    search := [], search_filter := [false, false], search_type := .BOX4 100 110 (-5) 5,
    readCount := 1 }

/-! ### Lemmas about the filtering primitives -/

theorem maskFilter_map (idx : List Row) (p : Row → Bool) :
    maskFilter idx (idx.map p) = idx.filter p := by
  induction idx with
  | nil => rfl
  | cons r rs ih =>
    simp only [List.map_cons, maskFilter, List.filter_cons]
    cases hp : p r <;> simp [hp, ih]

theorem maskFilter_nil_right (idx : List Row) : maskFilter idx [] = [] := by
  cases idx <;> rfl

theorem takeIndices_trueIndicesAux (mask : List Bool) :
    ∀ (pre suf : List Row), mask.length = suf.length →
      takeIndices (pre ++ suf) (trueIndicesAux pre.length mask) = maskFilter suf mask := by
  induction mask with
  | nil =>
    intro pre suf h
    cases suf with
    | nil => simp [trueIndicesAux, takeIndices, maskFilter_nil_right]
    | cons a l => simp at h
  | cons b bs ih =>
    intro pre suf h
    cases suf with
    | nil => simp at h
    | cons s ss =>
      have h' : bs.length = ss.length := by simpa using h
      have hget : (pre ++ s :: ss)[pre.length]? = some s := by
        rw [List.getElem?_append_right (Nat.le_refl _)]
        simp
      have key := ih (pre ++ [s]) ss h'
      rw [show (pre ++ [s]).length = pre.length + 1 by simp] at key
      rw [show (pre ++ [s]) ++ ss = pre ++ s :: ss by simp] at key
      cases b with
      | false => simpa [trueIndicesAux, maskFilter] using key
      | true =>
        have step : takeIndices (pre ++ s :: ss) (trueIndicesAux pre.length (true :: bs))
            = s :: takeIndices (pre ++ s :: ss) (trueIndicesAux (pre.length + 1) bs) := by
          simp [trueIndicesAux, takeIndices, List.filterMap_cons, hget]
        rw [step, key]
        simp [maskFilter]

theorem takeIndices_trueIndices (idx : List Row) (mask : List Bool)
    (h : mask.length = idx.length) :
    takeIndices idx (trueIndices mask) = maskFilter idx mask := by
  simpa [trueIndices] using takeIndices_trueIndicesAux mask [] idx h

theorem trueIndicesAux_lt (mask : List Bool) :
    ∀ (k i : Nat), i ∈ trueIndicesAux k mask → i < k + mask.length := by
  induction mask with
  | nil => intro k i h; simp [trueIndicesAux] at h
  | cons b bs ih =>
    intro k i h
    cases b with
    | false =>
      have := ih (k + 1) i (by simpa [trueIndicesAux] using h)
      simp only [List.length_cons]
      omega
    | true =>
      simp only [trueIndicesAux, if_pos, List.mem_cons] at h
      rcases h with rfl | h
      · simp only [List.length_cons]; omega
      · have := ih (k + 1) i h
        simp only [List.length_cons]
        omega

theorem takeIndices_take (idx : List Row) :
    ∀ (pos : List Nat) (k : Nat), (∀ i ∈ pos, i < idx.length) →
      takeIndices idx (pos.take k) = (takeIndices idx pos).take k := by
  intro pos
  induction pos with
  | nil => intro k _; simp [takeIndices]
  | cons i is ih =>
    intro k h
    have hi : i < idx.length := h i (List.mem_cons_self _ _)
    have hr : idx[i]? = some idx[i] := List.getElem?_eq_getElem hi
    cases k with
    | zero => simp [takeIndices]
    | succ k =>
      simp only [List.take_succ_cons, takeIndices, List.filterMap_cons, hr, List.take_cons]
      rw [show List.filterMap (fun j => idx[j]?) (is.take k)
            = takeIndices idx (is.take k) from rfl,
          show List.filterMap (fun j => idx[j]?) is = takeIndices idx is from rfl,
          ih k (fun j hj => h j (List.mem_cons_of_mem _ hj))]

theorem trueIndicesAux_all_false (mask : List Bool) (h : ∀ b ∈ mask, b = false) :
    ∀ k, trueIndicesAux k mask = [] := by
  induction mask with
  | nil => intro k; rfl
  | cons b bs ih =>
    intro k
    have hb : b = false := h b (List.mem_cons_self _ _)
    have hbs : ∀ b ∈ bs, b = false := fun x hx => h x (List.mem_cons_of_mem _ hx)
    simp [trueIndicesAux, hb, ih hbs]

theorem maskFilter_all_false (idx : List Row) :
    ∀ (mask : List Bool), (∀ b ∈ mask, b = false) → maskFilter idx mask = [] := by
  induction idx with
  | nil => intro mask _; rfl
  | cons r rs ih =>
    intro mask h
    cases mask with
    | nil => rfl
    | cons b bs =>
      have hb : b = false := h b (List.mem_cons_self _ _)
      have hbs : ∀ x ∈ bs, x = false := fun x hx => h x (List.mem_cons_of_mem _ hx)
      simp [maskFilter, hb, ih bs hbs]

/-! ### Lemmas about the two `run` implementations -/

theorem run_pyarrow_none (idx : List Row) (p : Row → Bool) :
    indexstore_pyarrow.run idx (idx.map p) none = idx.filter p := by
  simp [indexstore_pyarrow.run, maskFilter_map]

theorem run_pandas_none (idx : List Row) (p : Row → Bool) :
    indexstore_pandas.run idx (idx.map p) none = idx.filter p := by
  simp [indexstore_pandas.run, maskFilter_map]

theorem run_pyarrow_some (idx : List Row) (p : Row → Bool) (n : Nat) :
    indexstore_pyarrow.run idx (idx.map p) (some n)
      = (idx.filter p).take (min n (trueIndices (idx.map p)).length) := by
  have hlen : (idx.map p).length = idx.length := List.length_map idx p
  have hmf : takeIndices idx (trueIndices (idx.map p)) = maskFilter idx (idx.map p) :=
    takeIndices_trueIndices idx (idx.map p) hlen
  by_cases hm : 0 < (trueIndices (idx.map p)).length
  · have hbound : ∀ i ∈ trueIndices (idx.map p), i < idx.length := by
      intro i hi
      have := trueIndicesAux_lt (idx.map p) 0 i hi
      omega
    simp only [indexstore_pyarrow.run, hm, if_pos]
    rw [takeIndices_take idx _ _ hbound, hmf, maskFilter_map]
  · have hz : trueIndices (idx.map p) = [] :=
      List.length_eq_zero.mp (Nat.eq_zero_of_not_pos hm)
    have hfz : idx.filter p = [] := by
      rw [← maskFilter_map, ← hmf, hz]; rfl
    simp [indexstore_pyarrow.run, hm, hfz, maskFilter_map]

theorem run_pyarrow_empty (idx : List Row) (mask : List Bool) (nrows : Option Nat)
    (h : ∀ b ∈ mask, b = false) :
    indexstore_pyarrow.run idx mask nrows = [] := by
  have hz : trueIndices mask = [] := trueIndicesAux_all_false mask h 0
  have hmf : maskFilter idx mask = [] := maskFilter_all_false idx mask h
  cases nrows <;> simp [indexstore_pyarrow.run, trueIndices] at hz ⊢ <;>
    simp [hz, hmf, trueIndices]

theorem run_pandas_empty (idx : List Row) (mask : List Bool) (nrows : Option Nat)
    (h : ∀ b ∈ mask, b = false) :
    indexstore_pandas.run idx mask nrows = [] := by
  have hz : trueIndices mask = [] := trueIndicesAux_all_false mask h 0
  have hmf : maskFilter idx mask = [] := maskFilter_all_false idx mask h
  cases nrows <;> simp [indexstore_pandas.run, trueIndices] at hz ⊢ <;>
    simp [hz, hmf, trueIndices]

/-! ### Lemmas about `load` and the search skeleton -/

theorem loadCheck_fst_loaded (s : ArgoStore) (nrows : Option Nat) :
    ((ArgoIndexStoreProto.loadCheck s nrows).1).loaded = s.loaded := by
  unfold ArgoIndexStoreProto.loadCheck
  split
  · rfl
  · split
    · split <;> rfl
    · rfl

theorem loadCheck_fst_readCount (s : ArgoStore) (nrows : Option Nat) :
    ((ArgoIndexStoreProto.loadCheck s nrows).1).readCount = s.readCount := by
  unfold ArgoIndexStoreProto.loadCheck
  split
  · rfl
  · split
    · split <;> rfl
    · rfl

theorem loadCheck_snd (s : ArgoStore) (nrows : Option Nat) :
    (ArgoIndexStoreProto.loadCheck s nrows).2 = none ∨
      (ArgoIndexStoreProto.loadCheck s nrows).2
        = some (.DataNotFound "No data found in the index") := by
  unfold ArgoIndexStoreProto.loadCheck
  split
  · right; rfl
  · split
    · split
      · left; rfl
      · left; rfl
    · left; rfl

theorem loadCheck_none_fst (s : ArgoStore) :
    (ArgoIndexStoreProto.loadCheck s none).1 = s := by
  unfold ArgoIndexStoreProto.loadCheck
  split <;> rfl

theorem load_fst_loaded (s : ArgoStore) (force : Bool) (nrows : Option Nat) :
    ((ArgoIndexStoreProto.load s force nrows).1).loaded = true := by
  unfold ArgoIndexStoreProto.load
  rw [loadCheck_fst_loaded]
  split
  · rfl
  · next hc =>
    cases hL : s.loaded
    · exact absurd (by rw [hL]; rfl) hc
    · rfl

theorem load_of_loaded_fst (s : ArgoStore) (h : s.loaded = true) :
    (ArgoIndexStoreProto.load s false none).1 = s := by
  unfold ArgoIndexStoreProto.load
  rw [if_neg (by simp [h])]
  exact loadCheck_none_fst s

theorem load_err_shape (s : ArgoStore) (force : Bool) (nrows : Option Nat) :
    (ArgoIndexStoreProto.load s force nrows).2 = none ∨
      (ArgoIndexStoreProto.load s force nrows).2
        = some (.DataNotFound "No data found in the index") := by
  unfold ArgoIndexStoreProto.load
  exact loadCheck_snd _ _

theorem load_readCount_fresh (s : ArgoStore) (force : Bool) (nrows : Option Nat)
    (h : s.loaded = false) :
    ((ArgoIndexStoreProto.load s force nrows).1).readCount = s.readCount + 1 := by
  unfold ArgoIndexStoreProto.load
  rw [loadCheck_fst_readCount, if_pos (by rw [h]; rfl)]

theorem searchStep_snd_shape (s : ArgoStore) (st : SearchType) (mk : List Row → List Bool)
    (runner : List Row → List Bool → Option Nat → List Row) (nrows : Option Nat) :
    (ArgoIndexStoreProto.searchStep s st mk runner nrows).2 = none ∨
      (ArgoIndexStoreProto.searchStep s st mk runner nrows).2
        = some (.DataNotFound "No data found in the index") := by
  rcases hld : ArgoIndexStoreProto.load s false none with ⟨s1, e⟩
  have hshape := load_err_shape s false none
  rw [hld] at hshape
  rcases e with _ | err
  · left
    simp [ArgoIndexStoreProto.searchStep, hld]
  · rcases hshape with h | h
    · simp at h
    · right
      simp only [ArgoIndexStoreProto.searchStep, hld]
      exact h

theorem searchStep_success (s : ArgoStore) (st : SearchType) (mk : List Row → List Bool)
    (runner : List Row → List Bool → Option Nat → List Row) (nrows : Option Nat)
    (h : (ArgoIndexStoreProto.searchStep s st mk runner nrows).2 = none) :
    ((ArgoIndexStoreProto.searchStep s st mk runner nrows).1).loaded = true ∧
      ((ArgoIndexStoreProto.searchStep s st mk runner nrows).1).searched = true := by
  rcases hld : ArgoIndexStoreProto.load s false none with ⟨s1, e⟩
  have hl : s1.loaded = true := by
    have := load_fst_loaded s false none
    rw [hld] at this
    exact this
  rcases e with _ | err
  · simp [ArgoIndexStoreProto.searchStep, hld, hl]
  · rw [show (ArgoIndexStoreProto.searchStep s st mk runner nrows).2 = some err by
      simp [ArgoIndexStoreProto.searchStep, hld]] at h
    simp at h

theorem searchStep_readCount (s : ArgoStore) (st : SearchType) (mk : List Row → List Bool)
    (runner : List Row → List Bool → Option Nat → List Row) (nrows : Option Nat)
    (h : s.loaded = false) :
    ((ArgoIndexStoreProto.searchStep s st mk runner nrows).1).readCount = s.readCount + 1 := by
  rcases hld : ArgoIndexStoreProto.load s false none with ⟨s1, e⟩
  have hrc : s1.readCount = s.readCount + 1 := by
    have := load_readCount_fresh s false none h
    rw [hld] at this
    exact this
  rcases e with _ | err <;> simp [ArgoIndexStoreProto.searchStep, hld, hrc]

theorem searchStep_fields (s : ArgoStore) (st : SearchType) (mk : List Row → List Bool)
    (runner : List Row → List Bool → Option Nat → List Row) (nrows : Option Nat)
    (h : (ArgoIndexStoreProto.searchStep s st mk runner nrows).2 = none) :
    ((ArgoIndexStoreProto.searchStep s st mk runner nrows).1).search
        = runner ((ArgoIndexStoreProto.searchStep s st mk runner nrows).1).index
            (mk ((ArgoIndexStoreProto.searchStep s st mk runner nrows).1).index) nrows ∧
      ((ArgoIndexStoreProto.searchStep s st mk runner nrows).1).search_filter
        = mk ((ArgoIndexStoreProto.searchStep s st mk runner nrows).1).index ∧
      ((ArgoIndexStoreProto.searchStep s st mk runner nrows).1).search_type = st := by
  rcases hld : ArgoIndexStoreProto.load s false none with ⟨s1, e⟩
  rcases e with _ | err
  · simp [ArgoIndexStoreProto.searchStep, hld]
  · rw [show (ArgoIndexStoreProto.searchStep s st mk runner nrows).2 = some err by
      simp [ArgoIndexStoreProto.searchStep, hld]] at h
    simp at h

theorem searchStep_ok (s : ArgoStore) (st : SearchType) (mk : List Row → List Bool)
    (runner : List Row → List Bool → Option Nat → List Row) (nrows : Option Nat) :
    searchOk (ArgoIndexStoreProto.searchStep s st mk runner nrows) := by
  constructor
  · intro msg hcontra
    rcases searchStep_snd_shape s st mk runner nrows with h | h <;> rw [h] at hcontra <;>
      simp at hcontra
  · intro h
    exact searchStep_success s st mk runner nrows h

/-! ### Claim theorems -/

/-- C1: after `run(max_rows)` the Search table should consist exactly of the
Index rows satisfying the predicate, in original index row order, capped at
the first `min(max_rows, match_count)` matches.  The pyarrow backend does
exactly this (first two conjuncts, with and without `max_rows`), and without
`max_rows` the pandas backend agrees (third conjunct); but with `max_rows`
the pandas backend takes the head of the **full index** instead of the head
of the matches: on a two-row index whose predicate matches only the second
row, `run(max_rows=1)` returns the non-matching first row. -/
theorem C1_run_max_rows :
    (∀ (idx : List Row) (p : Row → Bool) (n : Nat),
        indexstore_pyarrow.run idx (idx.map p) (some n)
          = (idx.filter p).take (min n (trueIndices (idx.map p)).length))
    ∧ (∀ (idx : List Row) (p : Row → Bool),
        indexstore_pyarrow.run idx (idx.map p) none = idx.filter p
          ∧ indexstore_pandas.run idx (idx.map p) none = idx.filter p)
    ∧ indexstore_pyarrow.run [rowA, rowB] ([rowA, rowB].map onlyB) (some 1) = [rowB]
    ∧ indexstore_pandas.run [rowA, rowB] ([rowA, rowB].map onlyB) (some 1) = [rowA]
    ∧ [rowA, rowB].filter onlyB = [rowB]
    ∧ onlyB rowA = false :=
  ⟨run_pyarrow_some,
   fun idx p => ⟨run_pyarrow_none idx p, run_pandas_none idx p⟩,
   by decide, by decide, by decide, by decide⟩

/-- C2: `load(max_rows=n)` should leave `N_RECORDS = n` when the held parse
has more than `n` rows, but the truncation `self.index = self.index[0:nrows-1]`
keeps only `n - 1` rows: on a store holding a five-row index, `load` with
`max_rows = 3` returns without error and leaves two rows. -/
theorem C2_load_truncation :
    ((ArgoIndexStoreProto.load storeFive false (some 3)).1).index = rows5.take 2
    ∧ ((ArgoIndexStoreProto.load storeFive false (some 3)).1).index.length = 2
    ∧ (ArgoIndexStoreProto.load storeFive false (some 3)).2 = none
    ∧ storeFive.index.length = 5 := by
  refine ⟨by decide, by decide, by decide, by decide⟩

/-- C3: `cname` deterministically encodes the last search: the BOX-4 and
BOX-6 templates, the single/multiple WMO forms (multiple WMOs sorted
ascending), the WMO+cycles form (cycles sorted ascending inside `prtcyc`,
WMOs joined in input order), the cycles-only forms (sorted ascending),
`"full"` absent any search, and the three concrete round-trip examples. -/
theorem C3_cname_encoding :
    (∀ a b c d : ℚ, cname (.BOX4 a b c d)
        = "x=" ++ fmt2 a ++ "/" ++ fmt2 b ++ ";y=" ++ fmt2 c ++ "/" ++ fmt2 d)
    ∧ (∀ (a b c d : ℚ) (t0 t1 : Nat), cname (.BOX6 a b c d t0 t1)
        = "x=" ++ fmt2 a ++ "/" ++ fmt2 b ++ ";y=" ++ fmt2 c ++ "/" ++ fmt2 d
            ++ ";t=" ++ fmtDate t0 ++ "/" ++ fmtDate t1)
    ∧ (∀ w : Nat, cname (.WMO [w]) = "WMO" ++ toString w)
    ∧ (∀ (w1 w2 : Nat) (ws : List Nat), cname (.WMO (w1 :: w2 :: ws))
        = String.intercalate ";" ((pySorted (w1 :: w2 :: ws)).map (fun w => "WMO" ++ toString w)))
    ∧ (∀ (w : Nat) (cs : List Nat), cname (.WMO_CYC [w] cs) = prtcyc cs w)
    ∧ (∀ (w1 w2 : Nat) (ws cs : List Nat), cname (.WMO_CYC (w1 :: w2 :: ws) cs)
        = String.intercalate ";" ((w1 :: w2 :: ws).map (prtcyc cs)))
    ∧ (∀ (CYC : List Nat) (w : Nat), prtcyc CYC w
        = "WMO" ++ toString w ++ "_" ++
            String.intercalate "_" ((pySorted CYC).map (fun cyc => "CYC" ++ toString cyc)))
    ∧ (∀ c : Nat, cname (.CYC [c]) = "CYC" ++ toString c)
    ∧ (∀ (c1 c2 : Nat) (cs : List Nat), cname (.CYC (c1 :: c2 :: cs))
        = String.intercalate ";" ((pySorted (c1 :: c2 :: cs)).map (fun c => "CYC" ++ toString c)))
    ∧ cname .noSearch = "full"
    ∧ cname (.BOX4 (-60) (-55) 40 45) = "x=-60.00/-55.00;y=40.00/45.00"
    ∧ cname (.WMO [1901393]) = "WMO1901393"
    ∧ cname (.WMO_CYC [1901393] [1, 12]) = "WMO1901393_CYC1_CYC12"
    ∧ cname (.WMO_CYC [1901393] [12, 1]) = "WMO1901393_CYC1_CYC12"
    ∧ cname (.CYC [12, 1]) = "CYC1;CYC12"
    ∧ cname (.WMO [1901393, 13857]) = "WMO13857;WMO1901393" := by
  refine ⟨fun a b c d => rfl, fun a b c d t0 t1 => rfl, fun w => rfl,
    fun w1 w2 ws => rfl, fun w cs => rfl, fun w1 w2 ws cs => rfl,
    fun CYC w => rfl, fun c => rfl, fun c1 c2 cs => rfl, rfl,
    by decide, by decide, by decide, by decide, by decide, by decide⟩

/-- C4: `search_lat_lon` keeps exactly the index rows inside the box, both
bounds inclusive, on both backends: the run over the lat/lon mask equals the
filter by the four inclusive comparisons, membership in the result is
equivalent to membership in the index plus the four inclusive bounds, and on
a successful store-level `search_lat_lon` call the resulting `search` is that
filter of the resulting `index`. -/
theorem C4_search_lat_lon_inclusive :
    ∀ (idx : List Row) (a b c d : ℚ),
      (indexstore_pyarrow.run idx (latLonFilter idx a b c d) none
          = idx.filter (latLonPred a b c d))
      ∧ (indexstore_pandas.run idx (latLonFilter idx a b c d) none
          = idx.filter (latLonPred a b c d))
      ∧ (∀ r : Row, r ∈ indexstore_pyarrow.run idx (latLonFilter idx a b c d) none ↔
          r ∈ idx ∧ a ≤ r.longitude ∧ r.longitude ≤ b ∧ c ≤ r.latitude ∧ r.latitude ≤ d)
      ∧ (∀ s : ArgoStore,
          (indexstore_pyarrow.search_lat_lon s a b c d none).2 = none →
          ((indexstore_pyarrow.search_lat_lon s a b c d none).1).search
            = ((indexstore_pyarrow.search_lat_lon s a b c d none).1).index.filter
                (latLonPred a b c d))
      ∧ (∀ s : ArgoStore,
          (indexstore_pandas.search_lat_lon s a b c d none).2 = none →
          ((indexstore_pandas.search_lat_lon s a b c d none).1).search
            = ((indexstore_pandas.search_lat_lon s a b c d none).1).index.filter
                (latLonPred a b c d)) := by
  intro idx a b c d
  refine ⟨run_pyarrow_none idx (latLonPred a b c d),
    run_pandas_none idx (latLonPred a b c d), ?_, ?_, ?_⟩
  · intro r
    simp only [latLonFilter]
    rw [run_pyarrow_none idx (latLonPred a b c d), List.mem_filter]
    simp [latLonPred, and_assoc]
  · intro s h
    unfold indexstore_pyarrow.search_lat_lon at h ⊢
    have hf := searchStep_fields s (.BOX4 a b c d)
      (fun idx => latLonFilter idx a b c d) indexstore_pyarrow.run none h
    rw [hf.1]
    simp only [latLonFilter]
    exact run_pyarrow_none _ (latLonPred a b c d)
  · intro s h
    unfold indexstore_pandas.search_lat_lon at h ⊢
    have hf := searchStep_fields s (.BOX4 a b c d)
      (fun idx => latLonFilter idx a b c d) indexstore_pandas.run none h
    rw [hf.1]
    simp only [latLonFilter]
    exact run_pandas_none _ (latLonPred a b c d)

/-- C4 witness: the box `[-60, -55, 40, 45]` on the two-row fixture index
keeps exactly `rowB` (at longitude -57, latitude 42), and the store-level
calls succeed on the loaded fixture store with the same search result. -/
theorem C4_search_lat_lon_inclusive_witness :
    indexstore_pyarrow.run [rowA, rowB] (latLonFilter [rowA, rowB] (-60) (-55) 40 45) none
        = [rowB]
    ∧ ((indexstore_pyarrow.search_lat_lon storeSearched (-60) (-55) 40 45 none).1).search
        = ((indexstore_pyarrow.search_lat_lon storeSearched (-60) (-55) 40 45 none).1).index.filter
            (latLonPred (-60) (-55) 40 45)
    ∧ ((indexstore_pandas.search_lat_lon storeSearched (-60) (-55) 40 45 none).1).search
        = ((indexstore_pandas.search_lat_lon storeSearched (-60) (-55) 40 45 none).1).index.filter
            (latLonPred (-60) (-55) 40 45) :=
  ⟨by decide,
   ((C4_search_lat_lon_inclusive [rowA, rowB] (-60) (-55) 40 45).2.2.2.1
      storeSearched (by decide)),
   ((C4_search_lat_lon_inclusive [rowA, rowB] (-60) (-55) 40 45).2.2.2.2
      storeSearched (by decide))⟩

/-- C5: `search_cyc` selects the rows whose file name matches the per-cycle
suffix pattern — `_%0.3d.nc` below 1000, `_%0.4d.nc` at or above — on both
backends, and concretely: cycle 7 yields the pattern `_007.nc`, cycle 1234
yields `_1234.nc`, each matches a file carrying its own padding width and
neither matches a file carrying only the other width. -/
theorem C5_search_cyc_padding :
    (∀ (idx : List Row) (CYCs : List Nat),
        indexstore_pyarrow.run idx (cycFilter idx CYCs) none
          = idx.filter (fun r => CYCs.any (fun cyc => containsPattern (cycPattern cyc) r.file.toList))
        ∧ indexstore_pandas.run idx (cycFilter idx CYCs) none
          = idx.filter (fun r => CYCs.any (fun cyc => containsPattern (cycPattern cyc) r.file.toList)))
    ∧ cycPattern 7 = "_007.nc".toList
    ∧ cycPattern 1234 = "_1234.nc".toList
    ∧ containsPattern (cycPattern 7) "aoml/13857/profiles/R13857_007.nc".toList = true
    ∧ containsPattern (cycPattern 1234) "aoml/13857/profiles/R13857_1234.nc".toList = true
    ∧ containsPattern (cycPattern 7) "aoml/13857/profiles/R13857_1234.nc".toList = false
    ∧ containsPattern (cycPattern 1234) "aoml/13857/profiles/R13857_007.nc".toList = false
    ∧ indexstore_pyarrow.run [rowA, rowB] (cycFilter [rowA, rowB] [7]) none = [rowB]
    ∧ indexstore_pyarrow.run [rowA, rowB] (cycFilter [rowA, rowB] [1]) none = [rowA] :=
  ⟨fun idx CYCs =>
    ⟨run_pyarrow_none idx (fun r => CYCs.any (fun cyc => containsPattern (cycPattern cyc) r.file.toList)),
     run_pandas_none idx (fun r => CYCs.any (fun cyc => containsPattern (cycPattern cyc) r.file.toList))⟩,
   by decide, by decide, by decide, by decide, by decide, by decide, by decide, by decide⟩

/-- C6: when the search predicate matches no row, store-level `run` completes
(the model is total on the compute path) and leaves `N_MATCH = 0`, and a
subsequent `to_dataframe` reading the empty search raises `DataNotFound`,
on both backends. -/
theorem C6_empty_match :
    ∀ (s : ArgoStore) (nrows : Option Nat) (iM : String → String) (pM : IntOrStr → String),
      (∀ b ∈ s.search_filter, b = false) →
      ArgoIndexStoreProto.N_MATCH (indexstore_pyarrow.runStore s nrows) = .ok 0
      ∧ (ArgoIndexStoreProto.to_dataframe iM pM (indexstore_pyarrow.runStore s nrows) none false).2
          = .error (.DataNotFound
              ("No data found in the index corresponding to your search criteria. Search definition: "
                ++ cname s.search_type))
      ∧ ArgoIndexStoreProto.N_MATCH (indexstore_pandas.runStore s nrows) = .ok 0
      ∧ (ArgoIndexStoreProto.to_dataframe iM pM (indexstore_pandas.runStore s nrows) none false).2
          = .error (.DataNotFound
              ("No data found in the index corresponding to your search criteria. Search definition: "
                ++ cname s.search_type)) := by
  intro s nrows iM pM h
  have hpa := run_pyarrow_empty s.index s.search_filter nrows h
  have hpd := run_pandas_empty s.index s.search_filter nrows h
  refine ⟨?_, ?_, ?_, ?_⟩ <;>
    simp [ArgoIndexStoreProto.N_MATCH, ArgoIndexStoreProto.to_dataframe,
      indexstore_pyarrow.runStore, indexstore_pandas.runStore, hpa, hpd]

/-- C6 witness: on the fixture store whose mask matches nothing, `run` leaves
zero matches and `to_dataframe` raises `DataNotFound`, on both backends. -/
theorem C6_empty_match_witness :
    ArgoIndexStoreProto.N_MATCH (indexstore_pyarrow.runStore storeNoMatch none) = .ok 0
    ∧ (ArgoIndexStoreProto.to_dataframe id (fun x => "?") (indexstore_pyarrow.runStore storeNoMatch none) none false).2
        = .error (.DataNotFound
            ("No data found in the index corresponding to your search criteria. Search definition: "
              ++ cname storeNoMatch.search_type))
    ∧ ArgoIndexStoreProto.N_MATCH (indexstore_pandas.runStore storeNoMatch none) = .ok 0
    ∧ (ArgoIndexStoreProto.to_dataframe id (fun x => "?") (indexstore_pandas.runStore storeNoMatch none) none false).2
        = .error (.DataNotFound
            ("No data found in the index corresponding to your search criteria. Search definition: "
              ++ cname storeNoMatch.search_type)) :=
  C6_empty_match storeNoMatch none id (fun x => "?") (by decide)

/-- C7: `N_RECORDS` before any `load` and `N_MATCH` before any search raise
the `InvalidDataset` state error rather than returning a sentinel; once the
corresponding stage ran they return the row counts of `Index` and `Search`. -/
theorem C7_count_preconditions :
    (∀ s : ArgoStore, s.loaded = false →
        ArgoIndexStoreProto.N_RECORDS s = .error (.InvalidDataset "Load the index first !"))
    ∧ (∀ s : ArgoStore, s.searched = false →
        ArgoIndexStoreProto.N_MATCH s = .error (.InvalidDataset "Initialised search first !"))
    ∧ (∀ s : ArgoStore, s.loaded = true →
        ArgoIndexStoreProto.N_RECORDS s = .ok s.index.length)
    ∧ (∀ s : ArgoStore, s.searched = true →
        ArgoIndexStoreProto.N_MATCH s = .ok s.search.length) := by
  refine ⟨?_, ?_, ?_, ?_⟩ <;> intro s h <;>
    simp [ArgoIndexStoreProto.N_RECORDS, ArgoIndexStoreProto.N_MATCH, h]

/-- C7 witness: the state errors on a fresh store, the row counts on a
loaded-and-searched store. -/
theorem C7_count_preconditions_witness :
    ArgoIndexStoreProto.N_RECORDS storeFresh = .error (.InvalidDataset "Load the index first !")
    ∧ ArgoIndexStoreProto.N_MATCH storeFresh = .error (.InvalidDataset "Initialised search first !")
    ∧ ArgoIndexStoreProto.N_RECORDS storeSearched = .ok storeSearched.index.length
    ∧ ArgoIndexStoreProto.N_MATCH storeSearched = .ok storeSearched.search.length :=
  ⟨C7_count_preconditions.1 storeFresh rfl,
   C7_count_preconditions.2.1 storeFresh rfl,
   C7_count_preconditions.2.2.1 storeSearched rfl,
   C7_count_preconditions.2.2.2 storeSearched rfl⟩

/-- C8: `load` is idempotent unless forced: every `load` leaves a loaded
store, and on a loaded store a second `load(force=False, max_rows=None)`
returns the state unchanged — same `index` (hence same `N_RECORDS`) and same
`readCount` (no re-read of the backing file). -/
theorem C8_load_idempotent :
    (∀ (s : ArgoStore) (force : Bool) (nrows : Option Nat),
        ((ArgoIndexStoreProto.load s force nrows).1).loaded = true)
    ∧ (∀ s : ArgoStore, s.loaded = true →
        (ArgoIndexStoreProto.load s false none).1 = s) :=
  ⟨load_fst_loaded, load_of_loaded_fst⟩

/-- C8 witness: a second unforced `load` on the loaded five-row fixture store
is the identity on the state. -/
theorem C8_load_idempotent_witness :
    (ArgoIndexStoreProto.load storeFive false none).1 = storeFive :=
  C8_load_idempotent.2 storeFive rfl

/-- C9: `to_dataframe` computed from scratch applies the per-row
post-processing to the selected rows: the derived `wmo` is the second
`/`-separated segment of `file` parsed as an integer, `institution` /
`profiler_type` are renamed to `institution_code` / `profiler_code`, and the
mapped labels fill `institution` / `profiler` — so all four columns are
present on every output row. -/
theorem C9_to_dataframe_derived :
    (∀ (iM : String → String) (pM : IntOrStr → String) (s : ArgoStore) (nrows : Option Nat),
        s.searched = true → s.search.length ≠ 0 →
        (ArgoIndexStoreProto.to_dataframe iM pM s nrows false).2
          = .ok (ArgoIndexStoreProto.postprocess iM pM nrows s.search))
    ∧ (∀ (iM : String → String) (pM : IntOrStr → String) (nrows : Option Nat) (df : List Row),
        ArgoIndexStoreProto.postprocess iM pM nrows df
          = (ArgoIndexStoreProto.truncOpt nrows df).map (mkOutRow iM pM))
    ∧ (∀ (iM : String → String) (pM : IntOrStr → String) (r : Row),
        (mkOutRow iM pM r).wmo = pyWmoOf r.file
        ∧ (mkOutRow iM pM r).institution_code = r.institution
        ∧ (mkOutRow iM pM r).institution = iM r.institution
        ∧ (mkOutRow iM pM r).profiler_code = r.profiler_type
        ∧ (mkOutRow iM pM r).profiler = pM (ev r.profiler_type))
    ∧ pyWmoOf "aoml/1901393/profiles/R1901393_007.nc" = some 1901393 := by
  refine ⟨?_, fun iM pM nrows df => rfl, fun iM pM r => ⟨rfl, rfl, rfl, rfl, rfl⟩, by decide⟩
  intro iM pM s nrows hs hne
  simp [ArgoIndexStoreProto.to_dataframe, hs, hne]

/-- C9 witness: the search branch of `to_dataframe` on the searched fixture
store yields the post-processed search rows. -/
theorem C9_to_dataframe_derived_witness :
    (ArgoIndexStoreProto.to_dataframe id (fun x => "?") storeSearched none false).2
      = .ok (ArgoIndexStoreProto.postprocess id (fun x => "?") none storeSearched.search) :=
  C9_to_dataframe_derived.1 id (fun x => "?") storeSearched none rfl (by decide)

/-- C10: every public search method of either backend loads the index itself
first: no call ever raises the `InvalidDataset` load-the-index-first error,
on success the resulting store holds both an index and a search result, and
on a store with no index yet `search_wmo` performs exactly one backing-file
read. -/
theorem C10_search_methods_selfload :
    ∀ (s : ArgoStore) (W C : List Nat) (a b c d : ℚ) (t0 t1 : Nat) (nrows : Option Nat),
      searchOk (indexstore_pyarrow.search_wmo s W nrows)
      ∧ searchOk (indexstore_pyarrow.search_cyc s C nrows)
      ∧ searchOk (indexstore_pyarrow.search_wmo_cyc s W C nrows)
      ∧ searchOk (indexstore_pyarrow.search_tim s a b c d t0 t1 nrows)
      ∧ searchOk (indexstore_pyarrow.search_lat_lon s a b c d nrows)
      ∧ searchOk (indexstore_pyarrow.search_lat_lon_tim s a b c d t0 t1 nrows)
      ∧ searchOk (indexstore_pandas.search_wmo s W nrows)
      ∧ searchOk (indexstore_pandas.search_cyc s C nrows)
      ∧ searchOk (indexstore_pandas.search_wmo_cyc s W C nrows)
      ∧ searchOk (indexstore_pandas.search_tim s a b c d t0 t1 nrows)
      ∧ searchOk (indexstore_pandas.search_lat_lon s a b c d nrows)
      ∧ searchOk (indexstore_pandas.search_lat_lon_tim s a b c d t0 t1 nrows)
      ∧ (s.loaded = false →
          ((indexstore_pyarrow.search_wmo s W nrows).1).readCount = s.readCount + 1
          ∧ ((indexstore_pandas.search_wmo s W nrows).1).readCount = s.readCount + 1) := by
  intro s W C a b c d t0 t1 nrows
  exact ⟨searchStep_ok s _ _ _ nrows, searchStep_ok s _ _ _ nrows,
    searchStep_ok s _ _ _ nrows, searchStep_ok s _ _ _ nrows,
    searchStep_ok s _ _ _ nrows, searchStep_ok s _ _ _ nrows,
    searchStep_ok s _ _ _ nrows, searchStep_ok s _ _ _ nrows,
    searchStep_ok s _ _ _ nrows, searchStep_ok s _ _ _ nrows,
    searchStep_ok s _ _ _ nrows, searchStep_ok s _ _ _ nrows,
    fun h => ⟨searchStep_readCount s _ _ _ nrows h, searchStep_readCount s _ _ _ nrows h⟩⟩

/-- C10 witness: on the fresh fixture store, `search_wmo` succeeds without
the state error, sets both flags, and reads the backing file once, on both
backends. -/
theorem C10_search_methods_selfload_witness :
    searchOk (indexstore_pyarrow.search_wmo storeFresh [1901393] none)
    ∧ ((indexstore_pyarrow.search_wmo storeFresh [1901393] none).1).searched = true
    ∧ ((indexstore_pyarrow.search_wmo storeFresh [1901393] none).1).readCount
        = storeFresh.readCount + 1
    ∧ ((indexstore_pandas.search_wmo storeFresh [1901393] none).1).readCount
        = storeFresh.readCount + 1 :=
  ⟨(C10_search_methods_selfload storeFresh [1901393] [] 0 0 0 0 0 0 none).1,
   (((C10_search_methods_selfload storeFresh [1901393] [] 0 0 0 0 0 0 none).1).2 (by decide)).2,
   ((C10_search_methods_selfload storeFresh [1901393] [] 0 0 0 0 0 0
       none).2.2.2.2.2.2.2.2.2.2.2.2 rfl).1,
   ((C10_search_methods_selfload storeFresh [1901393] [] 0 0 0 0 0 0
       none).2.2.2.2.2.2.2.2.2.2.2.2 rfl).2⟩
